import Mathlib

/-!
Shallow embedding of the virtual machine in `src/vm.rs` (the `State` engine)
of the vm-thingy repository.

Modelling conventions:
* Machine integers (`u16`, `u8`, `usize`) are `Nat` with explicit wrapping
  (`% 65536`, `% 256`) exactly where the Rust code wraps.  Reads from the
  register file, the stack buffer and RAM mask to the machine width
  (`% 65536` for words, `% 256` for bytes), so that an arbitrary Lean state
  denotes a machine state.
* Buffers (`registers`, `stack`, `ram`) are total functions `Nat → Nat`
  together with an explicit length where the Rust buffer has one.  A
  bounds-checked Rust slice access that would panic is modelled as an
  explicit error.
* Fallible code returns `Except Error _`.  The Rust code panics on every
  `Err` (and on slice index / divide-by-zero / invalid-instruction panics);
  all of these surface as `Except.error` values of the `Error` type below,
  with the genuine panics given distinct `Panic…` constructors.
* The I/O pipes of `State` are modelled as byte lists (`stdin`, `stdout`);
  blocking is not modelled — an exhausted input stream reads as byte 0
  (pipe end-of-file).
-/

namespace VM

/-- Source constant `const REGISTER_COUNT: u16 = 8` -/
def REGISTER_COUNT : Nat := 8

/-- Source constant `const WORD_BITS: u8 = 15` -/
def WORD_BITS : Nat := 15

/-- Source constant `const ADDRESS_SPACE: u16 = !(1 << WORD_BITS)` = `0x7FFF` = 32767 -/
def ADDRESS_SPACE : Nat := 2 ^ WORD_BITS - 1

/-- Source constant `const RAM_SIZE: usize = 1 << WORD_BITS + 1` (precedence: `1 << 16` = 65536) -/
def RAM_SIZE : Nat := 2 ^ (WORD_BITS + 1)

/-- Source constant `const REGISTER_SPACE: u16 = ADDRESS_SPACE + REGISTER_COUNT` = 32775 -/
def REGISTER_SPACE : Nat := ADDRESS_SPACE + REGISTER_COUNT

/-- Source constant `const REGISTER_1: u16 = ADDRESS_SPACE + 1` = 32768; also the halt sentinel. -/
def REGISTER_1 : Nat := ADDRESS_SPACE + 1

/-- Source constant `const INVALID_START: u16 = ADDRESS_SPACE + REGISTER_COUNT + 1` = 32776 -/
def INVALID_START : Nat := ADDRESS_SPACE + REGISTER_COUNT + 1

/-- Source constant `const MIN_STACK_SIZE: usize = 1 << 8` = 256 -/
def MIN_STACK_SIZE : Nat := 2 ^ 8

/-- The `Error` enum of `vm.rs`, extended with constructors for the runtime
panics the Rust code can hit (slice index out of bounds, `unreachable!`,
`usize` underflow in debug builds, `%` by zero, unrecognized opcode byte).
`IOError` cannot arise in this model (pipes are modelled as pure lists). -/
inductive Error where
  | InvalidAddress (v : Nat)
  | InvalidUint15 (v : Nat)
  | InvalidRegister (v : Nat)
  | EmptyStack
  | PanicIndexOutOfBounds
  | PanicUnreachable
  | PanicArithmetic
  | PanicDivisionByZero
  | PanicInvalidInstruction (v : Nat)
deriving DecidableEq, Repr

/-- Pointwise update of a buffer modelled as a function. -/
def upd (f : Nat → Nat) (i v : Nat) : Nat → Nat :=
  fun j => if j = i then v else f j

/-- The `Memory` view of `vm.rs`: register file, stack buffer (slot 0 is the
stack pointer, slots `1..stackLen-1` are the data area), and RAM. -/
structure Mem where
  registers : Nat → Nat
  stackLen : Nat
  stackBuf : Nat → Nat
  ram : Nat → Nat

/-- Write register `i` (indices are always in `0..7` when produced by
`read_register`). -/
def setReg (m : Mem) (i v : Nat) : Mem :=
  { m with registers := upd m.registers i v }

/-- Word fetch `u16::from_le_bytes([ram[ptr], ram[ptr+1]])`, with byte reads masked to
`u8` width. -/
def leWord (m : Mem) (ptr : Nat) : Nat :=
  (m.ram ptr % 256) + 256 * (m.ram (ptr + 1) % 256)

/-- Source `fn read_uint15(ptr, memory) -> Result<u16, Error>`: literal for
`0..=ADDRESS_SPACE`, register content for `REGISTER_1..=REGISTER_SPACE`,
`InvalidUint15` above. -/
def read_uint15 (ptr : Nat) (m : Mem) : Except Error Nat :=
  let uint15 := leWord m ptr
  if uint15 ≤ ADDRESS_SPACE then .ok uint15
  else if uint15 ≤ REGISTER_SPACE then .ok (m.registers (uint15 - REGISTER_1) % 65536)
  else .error (.InvalidUint15 uint15)

/-- Source `fn read_register(ptr, memory) -> Result<usize, Error>`: a literal is
`InvalidRegister`, a register reference yields the register index,
`InvalidUint15` above the register range. -/
def read_register (ptr : Nat) (m : Mem) : Except Error Nat :=
  let uint15 := leWord m ptr
  if uint15 ≤ ADDRESS_SPACE then .error (.InvalidRegister uint15)
  else if uint15 ≤ REGISTER_SPACE then .ok (uint15 - REGISTER_1)
  else .error (.InvalidUint15 uint15)

/-- Source `fn read_uint15_address(ptr, memory) -> Result<u16, Error>`: resolves like
`read_uint15` and converts the word to a byte offset with `<< 1` on `u16`
(hence the `% 65536`). -/
def read_uint15_address (ptr : Nat) (m : Mem) : Except Error Nat :=
  let uint15 := leWord m ptr
  if uint15 ≤ ADDRESS_SPACE then .ok ((uint15 * 2) % 65536)
  else if uint15 ≤ REGISTER_SPACE then
    .ok ((m.registers (uint15 - REGISTER_1) % 65536 * 2) % 65536)
  else .error (.InvalidAddress uint15)

/-- Source `fn op_halt() -> Result<u16, Error> { Ok(REGISTER_1) }` (memory untouched). -/
def op_halt (m : Mem) : Except Error (Nat × Mem) :=
  .ok (REGISTER_1, m)

/-- opcode 1: `set a b` — register a := value b. -/
def op_set (ptr : Nat) (m : Mem) : Except Error (Nat × Mem) := do
  let register ← read_register (ptr + 2) m
  let value ← read_uint15 (ptr + 4) m
  .ok (ptr + 6, setReg m register value)

/-- opcode 2: `push a` — write the value at data index `sp` (full-buffer index
`sp + 1`; the Rust slice write panics when `sp` is outside the data area of
length `stackLen - 1`), then increment the pointer slot. -/
def op_push (ptr : Nat) (m : Mem) : Except Error (Nat × Mem) := do
  let a ← read_uint15 (ptr + 2) m
  if m.stackLen = 0 then .error .PanicUnreachable
  else
    let sp := m.stackBuf 0 % 65536
    if sp < m.stackLen - 1 then
      .ok (ptr + 4, { m with stackBuf := upd (upd m.stackBuf (sp + 1) a) 0 (sp + 1) })
    else .error .PanicIndexOutOfBounds

/-- opcode 3: `pop a` — `EmptyStack` when the pointer slot is 0; otherwise
decrement the pointer and move the top data word into register a. -/
def op_pop (ptr : Nat) (m : Mem) : Except Error (Nat × Mem) := do
  let register ← read_register (ptr + 2) m
  if m.stackLen = 0 then .error .PanicUnreachable
  else
    let sp := m.stackBuf 0 % 65536
    if sp = 0 then .error .EmptyStack
    else
      let sp' := sp - 1
      if sp' < m.stackLen - 1 then
        .ok (ptr + 4,
          { m with registers := upd m.registers register (m.stackBuf (sp' + 1) % 65536),
                   stackBuf := upd m.stackBuf 0 sp' })
      else .error .PanicIndexOutOfBounds

/-- opcode 4: `eq a b c`. -/
def op_eq (ptr : Nat) (m : Mem) : Except Error (Nat × Mem) := do
  let register ← read_register (ptr + 2) m
  let a ← read_uint15 (ptr + 4) m
  let b ← read_uint15 (ptr + 6) m
  .ok (ptr + 8, setReg m register (if a = b then 1 else 0))

/-- opcode 5: `gt a b c`. -/
def op_gt (ptr : Nat) (m : Mem) : Except Error (Nat × Mem) := do
  let register ← read_register (ptr + 2) m
  let a ← read_uint15 (ptr + 4) m
  let b ← read_uint15 (ptr + 6) m
  .ok (ptr + 8, setReg m register (if b < a then 1 else 0))

/-- opcode 6: `jmp a`. -/
def op_jmp (ptr : Nat) (m : Mem) : Except Error (Nat × Mem) := do
  let addr ← read_uint15_address (ptr + 2) m
  .ok (addr, m)

/-- opcode 7: `jt a b`. -/
def op_jt (ptr : Nat) (m : Mem) : Except Error (Nat × Mem) := do
  let a ← read_uint15 (ptr + 2) m
  if a = 0 then .ok (ptr + 6, m)
  else do
    let addr ← read_uint15_address (ptr + 4) m
    .ok (addr, m)

/-- opcode 8: `jf a b`. -/
def op_jf (ptr : Nat) (m : Mem) : Except Error (Nat × Mem) := do
  let a ← read_uint15 (ptr + 2) m
  if a = 0 then do
    let addr ← read_uint15_address (ptr + 4) m
    .ok (addr, m)
  else .ok (ptr + 6, m)

/-- opcode 9 (from the `operator_operation!` macro):
`op_add with (a, b) is ((a + b) % REGISTER_1)`.  `u16` addition wraps at
`2 ^ 16` (release semantics); operands stay below `2 ^ 15` in every claim. -/
def op_add (ptr : Nat) (m : Mem) : Except Error (Nat × Mem) := do
  let register ← read_register (ptr + 2) m
  let a ← read_uint15 (ptr + 4) m
  let b ← read_uint15 (ptr + 6) m
  .ok (ptr + 8, setReg m register ((a + b) % 65536 % REGISTER_1))

/-- opcode 10: `op_mult with (a, b) is (a.wrapping_mul(b) % REGISTER_1)` —
the 16-bit wrapping multiply is the explicit `% 65536`. -/
def op_mult (ptr : Nat) (m : Mem) : Except Error (Nat × Mem) := do
  let register ← read_register (ptr + 2) m
  let a ← read_uint15 (ptr + 4) m
  let b ← read_uint15 (ptr + 6) m
  .ok (ptr + 8, setReg m register (a * b % 65536 % REGISTER_1))

/-- opcode 11: `op_mod with (a, b) is (a % b)` — Rust `%` on `u16` panics when
the divisor is 0; the guard models that panic (Lean's `Nat.mod` would
silently return `a`). -/
def op_mod (ptr : Nat) (m : Mem) : Except Error (Nat × Mem) := do
  let register ← read_register (ptr + 2) m
  let a ← read_uint15 (ptr + 4) m
  let b ← read_uint15 (ptr + 6) m
  if b = 0 then .error .PanicDivisionByZero
  else .ok (ptr + 8, setReg m register (a % b))

/-- opcode 12: `op_and with (a, b) is (a & b)`. -/
def op_and (ptr : Nat) (m : Mem) : Except Error (Nat × Mem) := do
  let register ← read_register (ptr + 2) m
  let a ← read_uint15 (ptr + 4) m
  let b ← read_uint15 (ptr + 6) m
  .ok (ptr + 8, setReg m register (Nat.land a b))

/-- opcode 13: `op_or with (a, b) is (a | b)`. -/
def op_or (ptr : Nat) (m : Mem) : Except Error (Nat × Mem) := do
  let register ← read_register (ptr + 2) m
  let a ← read_uint15 (ptr + 4) m
  let b ← read_uint15 (ptr + 6) m
  .ok (ptr + 8, setReg m register (Nat.lor a b))

/-- opcode 14: `op_not with (a) is (!a & ADDRESS_SPACE)` — `!a` on `u16` is
`65535 - a` (the operand is ≤ 65535 because reads are masked). -/
def op_not (ptr : Nat) (m : Mem) : Except Error (Nat × Mem) := do
  let register ← read_register (ptr + 2) m
  let a ← read_uint15 (ptr + 4) m
  .ok (ptr + 6, setReg m register (Nat.land (65535 - a) ADDRESS_SPACE))

/-- opcode 15: `rmem a b` — reads the word at the resolved byte address. -/
def op_rmem (ptr : Nat) (m : Mem) : Except Error (Nat × Mem) := do
  let register ← read_register (ptr + 2) m
  let addr ← read_uint15_address (ptr + 4) m
  let value ← read_uint15 addr m
  .ok (ptr + 6, setReg m register value)

/-- opcode 16: `wmem a b` — stores the little-endian bytes of value b at the
resolved byte address of operand a. -/
def op_wmem (ptr : Nat) (m : Mem) : Except Error (Nat × Mem) := do
  let addr ← read_uint15_address (ptr + 2) m
  let value ← read_uint15 (ptr + 4) m
  let byte1 := value % 256
  let byte2 := value / 256
  .ok (ptr + 6, { m with ram := upd (upd m.ram addr byte1) (addr + 1) byte2 })

/-- opcode 17: `call a` — push `(ptr >> 1) + 2` (the word address of the next
instruction), then resolve the jump target on the updated memory. -/
def op_call (ptr : Nat) (m : Mem) : Except Error (Nat × Mem) :=
  if m.stackLen = 0 then .error .PanicUnreachable
  else
    let sp := m.stackBuf 0 % 65536
    if sp < m.stackLen - 1 then
      let m' := { m with stackBuf := upd (upd m.stackBuf (sp + 1) (ptr / 2 + 2)) 0 (sp + 1) }
      do
        let addr ← read_uint15_address (ptr + 2) m'
        .ok (addr, m')
    else .error .PanicIndexOutOfBounds

/-- opcode 18: `ret` — empty stack returns the halt sentinel `Ok(REGISTER_1)`;
otherwise pop and shift the popped word to byte units (`<< 1` on `u16`). -/
def op_ret (_ptr : Nat) (m : Mem) : Except Error (Nat × Mem) :=
  if m.stackLen = 0 then .error .PanicUnreachable
  else
    let sp := m.stackBuf 0 % 65536
    if sp = 0 then .ok (REGISTER_1, m)
    else
      let sp' := sp - 1
      if sp' < m.stackLen - 1 then
        .ok ((m.stackBuf (sp' + 1) % 65536 * 2) % 65536,
             { m with stackBuf := upd m.stackBuf 0 sp' })
      else .error .PanicIndexOutOfBounds

/-- opcode 19: `out a` — append the low byte of value a to the output stream. -/
def op_out (ptr : Nat) (m : Mem) (out : List Nat) : Except Error (Nat × List Nat) := do
  let c ← read_uint15 (ptr + 2) m
  .ok (ptr + 4, out ++ [c % 256])

/-- opcode 20: `in a` — consume one byte from the input stream (an exhausted
stream reads 0, the pipe end-of-file value; blocking is not modelled). -/
def op_in (ptr : Nat) (m : Mem) (inp : List Nat) : Except Error (Nat × Mem × List Nat) := do
  let byte := inp.headD 0 % 256
  let register ← read_register (ptr + 2) m
  .ok (ptr + 4, setReg m register byte, inp.tail)

/-- opcode 21: `noop`. -/
def op_noop (ptr : Nat) (m : Mem) : Except Error (Nat × Mem) :=
  .ok (ptr + 2, m)

/-- Source `fn resize_boxed_slice` / `boxed_slice`: the new buffer holds the first
`min new_size old_len` elements of the old one and is zero elsewhere. -/
def resize_boxed_slice (new_size : Nat) (len : Nat) (buf : Nat → Nat) : Nat × (Nat → Nat) :=
  (new_size, fun i => if i < min new_size len then buf i else 0)

/-- Source `fn expand_stack`: double the buffer. -/
def expand_stack (m : Mem) : Mem :=
  let r := resize_boxed_slice (m.stackLen * 2) m.stackLen m.stackBuf
  { m with stackLen := r.1, stackBuf := r.2 }

/-- Source `fn shrink_stack`: halve the buffer. -/
def shrink_stack (m : Mem) : Mem :=
  let r := resize_boxed_slice (m.stackLen / 2) m.stackLen m.stackBuf
  { m with stackLen := r.1, stackBuf := r.2 }

/-- The resize decision at the top of `State::next` (verbatim from the source):
expand when `stack_ptr == (len - 2) / 2`, otherwise shrink when
`stack_ptr <= (len - 2) / 4 && stack_ptr > MIN_STACK_SIZE`. -/
def stack_resize (m : Mem) : Mem :=
  let sp := m.stackBuf 0 % 65536
  if sp = (m.stackLen - 2) / 2 then expand_stack m
  else if sp ≤ (m.stackLen - 2) / 4 ∧ MIN_STACK_SIZE < sp then shrink_stack m
  else m

/-- The `State` struct of `vm.rs` (the `bin` image and the OS pipes are
modelled by the byte lists; `bin` is not needed by any claim). -/
structure State where
  program_ptr : Nat
  mem : Mem
  stdin : List Nat
  stdout : List Nat

/-- Source `pub fn done(&self) -> bool { self.program_ptr == REGISTER_1 }` -/
def done (s : State) : Bool :=
  s.program_ptr == REGISTER_1

/-- Source `pub fn init_with(bin)`: pointer 0, zero registers, stack of
`MIN_STACK_SIZE` zeroed slots, RAM seeded from the image and zero beyond. -/
def init_with (bin : List Nat) : State :=
  { program_ptr := 0
    mem := { registers := fun _ => 0
             stackLen := MIN_STACK_SIZE
             stackBuf := fun _ => 0
             ram := fun i => bin.getD i 0 % 256 }
    stdin := []
    stdout := [] }

/-- Lift an instruction result onto the whole machine state. -/
def applyOp (s : State) (r : Except Error (Nat × Mem)) : Except Error State :=
  match r with
  | .ok (p, m) => .ok { s with program_ptr := p, mem := m }
  | .error e => .error e

/-- Source `pub fn next(&mut self)`: a pointer outside `0..REGISTER_1` returns with
the state untouched; otherwise the stack resize check runs, the opcode byte at
the pointer is fetched and dispatched, and the returned pointer is stored.
Rust panics (`Err` results, unrecognized opcodes, the `stack[0]` read on an
empty buffer, the debug-build underflow of `len - 2` when `len = 1`) are
`Except.error`.  A state with `stackLen < 2` never arises from `init_with`. -/
def next (s : State) : Except Error State :=
  if s.program_ptr < REGISTER_1 then
    if s.mem.stackLen = 0 then .error .PanicIndexOutOfBounds
    else if s.mem.stackLen = 1 then .error .PanicArithmetic
    else
      let m := stack_resize s.mem
      let p := s.program_ptr
      match m.ram p % 256 with
      | 0 => applyOp s (op_halt m)
      | 1 => applyOp s (op_set p m)
      | 2 => applyOp s (op_push p m)
      | 3 => applyOp s (op_pop p m)
      | 4 => applyOp s (op_eq p m)
      | 5 => applyOp s (op_gt p m)
      | 6 => applyOp s (op_jmp p m)
      | 7 => applyOp s (op_jt p m)
      | 8 => applyOp s (op_jf p m)
      | 9 => applyOp s (op_add p m)
      | 10 => applyOp s (op_mult p m)
      | 11 => applyOp s (op_mod p m)
      | 12 => applyOp s (op_and p m)
      | 13 => applyOp s (op_or p m)
      | 14 => applyOp s (op_not p m)
      | 15 => applyOp s (op_rmem p m)
      | 16 => applyOp s (op_wmem p m)
      | 17 => applyOp s (op_call p m)
      | 18 => applyOp s (op_ret p m)
      | 19 =>
        match op_out p m s.stdout with
        | .ok (p', out') => .ok { s with program_ptr := p', mem := m, stdout := out' }
        | .error e => .error e
      | 20 =>
        match op_in p m s.stdin with
        | .ok (p', m', in') => .ok { s with program_ptr := p', mem := m', stdin := in' }
        | .error e => .error e
      | 21 => applyOp s (op_noop p m)
      | v => .error (.PanicInvalidInstruction v)
  else .ok s

/-- Iterated stepping; an error stops the run (the Rust engine panics). -/
def steps : Nat → State → Except Error State
  | 0, s => .ok s
  | n + 1, s =>
    match next s with
    | .ok s' => steps n s'
    | .error e => .error e


/-! ### Numeric values of the source constants -/

theorem ADDRESS_SPACE_eq : ADDRESS_SPACE = 32767 := rfl

theorem REGISTER_1_eq : REGISTER_1 = 32768 := rfl

theorem REGISTER_SPACE_eq : REGISTER_SPACE = 32775 := rfl

theorem INVALID_START_eq : INVALID_START = 32776 := rfl

theorem MIN_STACK_SIZE_eq : MIN_STACK_SIZE = 256 := rfl

/-! ### Shared helper lemmas -/

/-- A pointer outside the running range `0..REGISTER_1` makes `next` a no-op
on the whole state. -/
theorem next_of_halted (s : State) (h : REGISTER_1 ≤ s.program_ptr) :
    next s = .ok s := by
  simp only [next]
  rw [if_neg (by omega)]

/-- The engine reports `done` exactly at pointer `REGISTER_1 = 32768`. -/
theorem done_iff (s : State) : done s = true ↔ s.program_ptr = REGISTER_1 := by
  simp [done]

/-- A zero memory with a fresh (floor-sized, zeroed) stack. -/
def memZ : Mem :=
  { registers := fun _ => 0
    stackLen := MIN_STACK_SIZE
    stackBuf := fun _ => 0
    ram := fun _ => 0 }

/-- A machine state over `memZ` with a given pointer and closed pipes. -/
def stateAt (p : Nat) : State :=
  { program_ptr := p, mem := memZ, stdin := [], stdout := [] }

/-! ### C2 — the halt sentinel -/

/-- C2 counterexample: the claim names 32769 as the halt sentinel, but
`op_halt` returns `REGISTER_1 = 32768`, and a machine whose pointer is 32769
is not reported done. -/
theorem halt_sentinel_cex :
    op_halt memZ = .ok (32768, memZ) ∧ (32768 : Nat) ≠ 32769 ∧
    done (stateAt 32769) = false :=
  ⟨rfl, by decide, rfl⟩

/-- C2 amended: the reserved halt sentinel is `REGISTER_1 = 32768`, one past
the valid word range `0..ADDRESS_SPACE`; `op_halt` returns it, the engine
never fetches at it (any pointer ≥ 32768 leaves the state untouched), and
`done` reports halted exactly when the pointer equals it. -/
theorem halt_sentinel_amended :
    REGISTER_1 = 32768 ∧ REGISTER_1 = ADDRESS_SPACE + 1 ∧
    (∀ m : Mem, op_halt m = .ok (REGISTER_1, m)) ∧
    (∀ s : State, done s = true ↔ s.program_ptr = REGISTER_1) ∧
    (∀ s : State, REGISTER_1 ≤ s.program_ptr → next s = .ok s) :=
  ⟨rfl, rfl, fun _ => rfl, done_iff, next_of_halted⟩

/-- C2 witness: the amended theorem applied at the concrete halted state. -/
theorem halt_sentinel_amended_witness :
    next (stateAt 32768) = .ok (stateAt 32768) ∧ done (stateAt 32768) = true :=
  ⟨halt_sentinel_amended.2.2.2.2 (stateAt 32768) (by decide),
   (halt_sentinel_amended.2.2.2.1 (stateAt 32768)).mpr rfl⟩

/-! ### C10 — states with pointer at or beyond the sentinel -/

/-- A state about to execute `jmp 16384` (bytes `[6,0, 0,64]` at pointer 0). -/
def sJmp : State :=
  { program_ptr := 0
    mem := { memZ with ram := fun i => if i = 0 then 6 else if i = 3 then 64 else 0 }
    stdin := [], stdout := [] }

/-- C10 counterexample: a jump to word address exactly 16384 produces byte
pointer `2 * 16384 = 32768`, which is the halt sentinel itself, so the
resulting state IS reported done — refuting the claim's clause that every
jump to a word address ≥ 16384 yields a state that is not reported done. -/
theorem stuck_state_cex :
    next sJmp = .ok { sJmp with program_ptr := 2 * 16384 } ∧
    done { sJmp with program_ptr := 2 * 16384 } = true :=
  ⟨rfl, rfl⟩

/-- C10 amended: a step from any state with pointer ≥ 32768 leaves the whole
state (pointer, registers, stack, RAM, pipes) unchanged; `done` holds exactly
at pointer 32768; and a jump target word strictly greater than 16384 (not
≥ 16384: exactly 16384 lands on the sentinel) yields a never-progressing
state that is not reported done. -/
theorem stuck_state_amended :
    (∀ s : State, REGISTER_1 ≤ s.program_ptr → next s = .ok s) ∧
    (∀ s : State, done s = true ↔ s.program_ptr = REGISTER_1) ∧
    (∀ (w : Nat) (s : State), 16384 < w → w ≤ ADDRESS_SPACE →
      s.program_ptr = 2 * w → next s = .ok s ∧ done s = false) := by
  refine ⟨next_of_halted, done_iff, ?_⟩
  intro w s hw hw15 hp
  have h1 : REGISTER_1 ≤ s.program_ptr := by
    rw [hp, REGISTER_1_eq]; omega
  refine ⟨next_of_halted s h1, ?_⟩
  have : s.program_ptr ≠ REGISTER_1 := by
    rw [hp, REGISTER_1_eq]; omega
  simpa [done] using this

/-- C10 witness: the amended theorem applied at word address 16385
(byte pointer 32770). -/
theorem stuck_state_amended_witness :
    next (stateAt 32770) = .ok (stateAt 32770) ∧ done (stateAt 32770) = false :=
  stuck_state_amended.2.2 16385 (stateAt 32770) (by decide) (by decide) rfl


/-- Reduction of an `Except` bind whose first component is known to be `ok`. -/
theorem exbind_ok {α β : Type} (a : α) (f : α → Except Error β) :
    ((Except.ok a : Except Error α) >>= f) = f a := rfl

/-! ### C4 — operand classification boundaries -/

/-- C4: classification of a raw operand word by the three disjoint ranges:
32767 is the last literal, 32768 resolves to register 0, 32775 to register 7,
and 32776 (and everything above) fails with `InvalidUint15` (the spec's
`InvalidValue`). -/
theorem operand_classification (ptr : Nat) (m : Mem) :
    (leWord m ptr = 32767 → read_uint15 ptr m = .ok 32767) ∧
    (leWord m ptr = 32768 → read_uint15 ptr m = .ok (m.registers 0 % 65536)) ∧
    (leWord m ptr = 32775 → read_uint15 ptr m = .ok (m.registers 7 % 65536)) ∧
    (∀ v, leWord m ptr = v → 32776 ≤ v →
      read_uint15 ptr m = .error (.InvalidUint15 v)) := by
  refine ⟨?_, ?_, ?_, ?_⟩
  · intro h
    simp only [read_uint15]
    rw [h]
    norm_num [ADDRESS_SPACE_eq]
  · intro h
    simp only [read_uint15]
    rw [h]
    norm_num [ADDRESS_SPACE_eq, REGISTER_SPACE_eq, REGISTER_1_eq]
  · intro h
    simp only [read_uint15]
    rw [h]
    norm_num [ADDRESS_SPACE_eq, REGISTER_SPACE_eq, REGISTER_1_eq]
  · intro v h hv
    simp only [read_uint15]
    rw [h]
    rw [if_neg (by rw [ADDRESS_SPACE_eq]; omega),
        if_neg (by rw [REGISTER_SPACE_eq]; omega)]

/-- Concrete memory for the C4 witness: raw operands 32767, 32768, 32775 and
32776 encoded little-endian at byte offsets 0, 2, 4 and 6; register `i`
holds `i + 10`. -/
def mC4 : Mem :=
  { registers := fun i => i + 10
    stackLen := MIN_STACK_SIZE
    stackBuf := fun _ => 0
    ram := fun i =>
      if i = 0 then 255 else if i = 1 then 127
      else if i = 2 then 0 else if i = 3 then 128
      else if i = 4 then 7 else if i = 5 then 128
      else if i = 6 then 8 else if i = 7 then 128 else 0 }

/-- C4 witness: the boundary theorem applied at the four concrete operands. -/
theorem operand_classification_witness :
    read_uint15 0 mC4 = .ok 32767 ∧ read_uint15 2 mC4 = .ok 10 ∧
    read_uint15 4 mC4 = .ok 17 ∧
    read_uint15 6 mC4 = .error (.InvalidUint15 32776) :=
  ⟨(operand_classification 0 mC4).1 (by decide),
   (operand_classification 2 mC4).2.1 (by decide),
   (operand_classification 4 mC4).2.2.1 (by decide),
   (operand_classification 6 mC4).2.2.2 32776 (by decide) (by decide)⟩

/-! ### C5 — pop versus ret on an empty stack -/

/-- C5: on any state whose stack pointer slot is 0 (and whose destination
operand decodes to a register, as in any well-formed `pop` instruction),
`op_pop` fails with `EmptyStack` while `op_ret` succeeds with the halt
sentinel and the memory untouched. -/
theorem pop_ret_empty_asymmetry (ptr : Nat) (m : Mem) (reg : Nat)
    (hreg : read_register (ptr + 2) m = .ok reg)
    (hlen : 1 ≤ m.stackLen)
    (hsp : m.stackBuf 0 % 65536 = 0) :
    op_pop ptr m = .error .EmptyStack ∧ op_ret ptr m = .ok (REGISTER_1, m) := by
  constructor
  · simp only [op_pop]
    rw [hreg, exbind_ok]
    rw [if_neg (show ¬m.stackLen = 0 by omega)]
    simp only [hsp]
    simp
  · simp only [op_ret]
    rw [if_neg (show ¬m.stackLen = 0 by omega)]
    simp only [hsp]
    simp

/-- Concrete memory for the C5 witness: a fresh machine whose program is a
single `pop r0` / `ret` instruction (raw operand 32768 at byte offset 2). -/
def mC5 : Mem :=
  { registers := fun _ => 0
    stackLen := MIN_STACK_SIZE
    stackBuf := fun _ => 0
    ram := fun i => if i = 3 then 128 else 0 }

/-- C5 witness: the asymmetry theorem applied to the fresh machine `mC5`. -/
theorem pop_ret_empty_asymmetry_witness :
    op_pop 0 mC5 = .error .EmptyStack ∧ op_ret 0 mC5 = .ok (REGISTER_1, mC5) :=
  pop_ret_empty_asymmetry 0 mC5 0 (by rfl) (by decide) (by decide)


/-! ### C1 — add and mult wrap into the word domain -/

/-- C1: when the operands of `add` resolve to word values `b, c ≤ 32767`, the
stored value is `(b + c) % 32768`; for `mult` it is `(b * c) % 32768` — the
16-bit wrapping multiply of the source followed by `% 32768` equals the
widened product reduced mod 32768 — and both stored values are ≤ 32767. -/
theorem add_mult_wraparound (ptr : Nat) (m : Mem) (reg b c : Nat)
    (hreg : read_register (ptr + 2) m = .ok reg)
    (hb : read_uint15 (ptr + 4) m = .ok b)
    (hc : read_uint15 (ptr + 6) m = .ok c)
    (hb15 : b ≤ ADDRESS_SPACE) (hc15 : c ≤ ADDRESS_SPACE) :
    op_add ptr m = .ok (ptr + 8, setReg m reg ((b + c) % REGISTER_1)) ∧
    op_mult ptr m = .ok (ptr + 8, setReg m reg (b * c % REGISTER_1)) ∧
    (b + c) % REGISTER_1 ≤ ADDRESS_SPACE ∧ b * c % REGISTER_1 ≤ ADDRESS_SPACE := by
  have hb' : b ≤ 32767 := by rw [ADDRESS_SPACE_eq] at hb15; exact hb15
  have hc' : c ≤ 32767 := by rw [ADDRESS_SPACE_eq] at hc15; exact hc15
  refine ⟨?_, ?_, ?_, ?_⟩
  · simp only [op_add]
    rw [hreg, exbind_ok, hb, exbind_ok, hc, exbind_ok]
    have h1 : (b + c) % 65536 = b + c := Nat.mod_eq_of_lt (by omega)
    rw [h1]
  · simp only [op_mult]
    rw [hreg, exbind_ok, hb, exbind_ok, hc, exbind_ok]
    have h1 : b * c % 65536 % REGISTER_1 = b * c % REGISTER_1 := by
      rw [REGISTER_1_eq]
      exact Nat.mod_mod_of_dvd _ (by norm_num)
    rw [h1]
  · rw [REGISTER_1_eq, ADDRESS_SPACE_eq]
    have := Nat.mod_lt (b + c) (show 0 < 32768 by norm_num)
    omega
  · rw [REGISTER_1_eq, ADDRESS_SPACE_eq]
    have := Nat.mod_lt (b * c) (show 0 < 32768 by norm_num)
    omega

/-- Concrete memory for the C1 witness: destination register 2 (raw 32770),
literal operands 30000 and 30001 — a near-overflow product — encoded at byte
offsets 2, 4, 6 of an `add`/`mult` instruction at pointer 0. -/
def mC1 : Mem :=
  { registers := fun _ => 0
    stackLen := MIN_STACK_SIZE
    stackBuf := fun _ => 0
    ram := fun i =>
      if i = 2 then 2 else if i = 3 then 128
      else if i = 4 then 48 else if i = 5 then 117
      else if i = 6 then 49 else if i = 7 then 117 else 0 }

/-- C1 witness: the wraparound theorem at `b = 30000`, `c = 30001`
(`30000 * 30001` wraps the 16-bit intermediate). -/
theorem add_mult_wraparound_witness :
    op_add 0 mC1 = .ok (8, setReg mC1 2 ((30000 + 30001) % REGISTER_1)) ∧
    op_mult 0 mC1 = .ok (8, setReg mC1 2 (30000 * 30001 % REGISTER_1)) ∧
    (30000 + 30001) % REGISTER_1 ≤ ADDRESS_SPACE ∧
    30000 * 30001 % REGISTER_1 ≤ ADDRESS_SPACE :=
  add_mult_wraparound 0 mC1 2 30000 30001 (by rfl) (by rfl) (by rfl)
    (by decide) (by decide)

/-! ### C9 — mod with a zero divisor -/

/-- C9: the division in `op_mod` is unguarded in the source (`a % b` on `u16`
panics when `b = 0`); the embedding makes the panic explicit: a divisor
operand resolving to 0 yields `PanicDivisionByZero` (not one of the typed
error kinds), and a nonzero divisor `c` stores `b % c`. -/
theorem mod_divzero_guard (ptr : Nat) (m : Mem) (reg b : Nat)
    (hreg : read_register (ptr + 2) m = .ok reg)
    (hb : read_uint15 (ptr + 4) m = .ok b) :
    (read_uint15 (ptr + 6) m = .ok 0 →
      op_mod ptr m = .error .PanicDivisionByZero) ∧
    (∀ c, read_uint15 (ptr + 6) m = .ok c → c ≠ 0 →
      op_mod ptr m = .ok (ptr + 8, setReg m reg (b % c))) := by
  constructor
  · intro hc
    simp only [op_mod]
    rw [hreg, exbind_ok, hb, exbind_ok, hc, exbind_ok]
    simp
  · intro c hc hc0
    simp only [op_mod]
    rw [hreg, exbind_ok, hb, exbind_ok, hc, exbind_ok]
    rw [if_neg hc0]

/-- Concrete memories for the C9 witness: destination register 0, dividend
literal 123; divisor literal 0 in `mC9z`, divisor literal 7 in `mC9n`. -/
def mC9z : Mem :=
  { registers := fun _ => 0
    stackLen := MIN_STACK_SIZE
    stackBuf := fun _ => 0
    ram := fun i => if i = 3 then 128 else if i = 4 then 123 else 0 }

/-- Variant of `mC9z` whose divisor operand is the literal 7. -/
def mC9n : Mem :=
  { registers := fun _ => 0
    stackLen := MIN_STACK_SIZE
    stackBuf := fun _ => 0
    ram := fun i => if i = 3 then 128 else if i = 4 then 123 else if i = 6 then 7 else 0 }

/-- C9 witness: `mod` panics on the zero divisor and stores `123 % 7`
on the nonzero one. -/
theorem mod_divzero_guard_witness :
    op_mod 0 mC9z = .error .PanicDivisionByZero ∧
    op_mod 0 mC9n = .ok (8, setReg mC9n 0 (123 % 7)) :=
  ⟨(mod_divzero_guard 0 mC9z 0 123 (by rfl) (by rfl)).1 (by rfl),
   (mod_divzero_guard 0 mC9n 0 123 (by rfl) (by rfl)).2 7 (by rfl) (by decide)⟩


/-! ### C6 — the stack shrink rule -/

/-- Concrete memory for the C6 counterexample: capacity 2048 words (well above
the 256 floor) with stack pointer 100 (at or below the quarter mark 511). -/
def mC6 : Mem :=
  { registers := fun _ => 0
    stackLen := 2048
    stackBuf := fun i => if i = 0 then 100 else 0
    ram := fun _ => 0 }

/-- C6 counterexample: capacity 2048 exceeds the floor and the stack pointer
100 is at or below a quarter of the usable capacity, yet the resize check
does not shrink the buffer (the source guard compares the stack pointer, not
the capacity, to the floor, and 100 is not above 256). -/
theorem shrink_guard_cex :
    MIN_STACK_SIZE < mC6.stackLen ∧
    mC6.stackBuf 0 % 65536 ≤ (mC6.stackLen - 2) / 4 ∧
    (stack_resize mC6).stackLen = 2048 :=
  ⟨by decide, by decide, rfl⟩

/-- C6 amended: the shrink branch fires exactly when the stack pointer is at
or below `(len - 2) / 4` AND the stack pointer (not the capacity) exceeds the
256 floor, and the expand condition `sp = (len - 2) / 2` does not hold; a
fired shrink halves the buffer.  It remains true that a buffer whose capacity
is at or below the floor is never shrunk (the resize check leaves it alone or
doubles it). -/
theorem shrink_guard_amended (m : Mem) (hlen : 2 ≤ m.stackLen) :
    ((stack_resize m).stackLen = m.stackLen / 2 ↔
      (m.stackBuf 0 % 65536 ≠ (m.stackLen - 2) / 2 ∧
       m.stackBuf 0 % 65536 ≤ (m.stackLen - 2) / 4 ∧
       MIN_STACK_SIZE < m.stackBuf 0 % 65536)) ∧
    (m.stackLen ≤ MIN_STACK_SIZE →
      (stack_resize m).stackLen = m.stackLen ∨
      (stack_resize m).stackLen = m.stackLen * 2) := by
  simp only [stack_resize]
  by_cases h1 : m.stackBuf 0 % 65536 = (m.stackLen - 2) / 2
  · rw [if_pos h1]
    simp only [expand_stack, resize_boxed_slice]
    constructor
    · constructor
      · intro h
        omega
      · rintro ⟨ha, -, -⟩
        exact absurd h1 ha
    · intro _
      right
      trivial
  · rw [if_neg h1]
    by_cases h2 : m.stackBuf 0 % 65536 ≤ (m.stackLen - 2) / 4 ∧
        MIN_STACK_SIZE < m.stackBuf 0 % 65536
    · rw [if_pos h2]
      simp only [shrink_stack, resize_boxed_slice]
      constructor
      · exact ⟨fun _ => ⟨h1, h2.1, h2.2⟩, fun _ => by trivial⟩
      · intro hfloor
        rw [MIN_STACK_SIZE_eq] at hfloor h2
        omega
    · rw [if_neg h2]
      constructor
      · constructor
        · intro h
          omega
        · rintro ⟨-, ha, hb⟩
          exact absurd ⟨ha, hb⟩ h2
      · intro _
        left
        trivial

/-- C6 witness: the amended characterization applied to `mC6` — no branch of
the shrink condition triggering — and to a genuinely shrinking memory with
capacity 2048 and stack pointer 300. -/
theorem shrink_guard_amended_witness :
    (stack_resize mC6).stackLen = mC6.stackLen / 2 ↔
      (mC6.stackBuf 0 % 65536 ≠ (mC6.stackLen - 2) / 2 ∧
       mC6.stackBuf 0 % 65536 ≤ (mC6.stackLen - 2) / 4 ∧
       MIN_STACK_SIZE < mC6.stackBuf 0 % 65536) :=
  (shrink_guard_amended mC6 (by decide)).1


/-! ### C3 — odd instruction pointers -/

/-- A state whose pointer is the odd byte offset 1, where RAM holds the
`noop` opcode byte 21. -/
def sOdd : State :=
  { program_ptr := 1
    mem := { memZ with ram := fun i => if i = 1 then 21 else 0 }
    stdin := [], stdout := [] }

/-- C3 counterexample: at the odd running-range pointer 1 the engine does not
fail: it fetches the byte at offset 1 (a `noop`) and dispatches it, advancing
the pointer to 3 — there is no odd-pointer fatal condition in `State::next`. -/
theorem odd_pointer_cex :
    sOdd.program_ptr % 2 = 1 ∧ sOdd.program_ptr < REGISTER_1 ∧
    next sOdd = .ok { sOdd with program_ptr := 3 } :=
  ⟨rfl, by decide, rfl⟩

/-- C3 amended: `State::next` performs no parity check — any running-range
pointer, odd ones included, fetches and dispatches the byte at that offset
(here the `noop` byte 21, which advances the pointer by 2; only the separate
driver loop in `main.rs` panics on odd pointers). -/
theorem odd_pointer_amended (s : State)
    (hrun : s.program_ptr < REGISTER_1) (hodd : s.program_ptr % 2 = 1)
    (hbyte : s.mem.ram s.program_ptr % 256 = 21)
    (hlen : 2 ≤ s.mem.stackLen)
    (hres : stack_resize s.mem = s.mem) :
    next s = .ok { s with program_ptr := s.program_ptr + 2 } := by
  simp only [next]
  rw [if_pos hrun, if_neg (by omega), if_neg (by omega), hres, hbyte]
  rfl

/-- C3 witness: the amended theorem applied to the concrete odd-pointer
state `sOdd`. -/
theorem odd_pointer_amended_witness :
    next sOdd = .ok { sOdd with program_ptr := sOdd.program_ptr + 2 } :=
  odd_pointer_amended sOdd (by decide) (by decide) (by rfl) (by decide) (by rfl)


/-! ### C8 — wmem followed by rmem round-trips -/

/-- C8: if a `wmem` instruction's address operand resolves to word address
`addr` (byte offset `2 * addr`) and its value operand to a word `v ≤ 32767`,
then after executing it, any `rmem` whose destination decodes to register
`reg` and whose address operand resolves to the same `addr` stores exactly
`v` into register `reg`: the word-to-byte conversion and the little-endian
encode/decode round-trip exactly. -/
theorem wmem_rmem_roundtrip (m : Mem) (p p2 addr v reg : Nat)
    (haddr : addr ≤ ADDRESS_SPACE) (hv : v ≤ ADDRESS_SPACE)
    (h1 : read_uint15_address (p + 2) m = .ok (2 * addr))
    (h2 : read_uint15 (p + 4) m = .ok v)
    (m' : Mem) (hw : op_wmem p m = .ok (p + 6, m'))
    (h3 : read_register (p2 + 2) m' = .ok reg)
    (h4 : read_uint15_address (p2 + 4) m' = .ok (2 * addr)) :
    op_rmem p2 m' = .ok (p2 + 6, setReg m' reg v) ∧
    (setReg m' reg v).registers reg = v := by
  have haddr' : addr ≤ 32767 := by rw [ADDRESS_SPACE_eq] at haddr; exact haddr
  have hv' : v ≤ 32767 := by rw [ADDRESS_SPACE_eq] at hv; exact hv
  have hm' : m' = { m with ram := upd (upd m.ram (2 * addr) (v % 256)) (2 * addr + 1) (v / 256) } := by
    have := hw
    simp only [op_wmem] at this
    rw [h1, exbind_ok, h2, exbind_ok] at this
    have h := (Except.ok.injEq _ _).mp this.symm
    exact (Prod.mk.injEq _ _ _ _).mp h |>.2
  have hread : read_uint15 (2 * addr) m' = .ok v := by
    have hw1 : m'.ram (2 * addr) = v % 256 := by
      rw [hm']
      simp only [upd]
      rw [if_neg (by omega)]
      simp
    have hw2 : m'.ram (2 * addr + 1) = v / 256 := by
      rw [hm']
      simp only [upd]
      simp
    have hle : leWord m' (2 * addr) = v := by
      simp only [leWord, hw1, hw2]
      have e1 : v % 256 % 256 = v % 256 := Nat.mod_mod_of_dvd _ dvd_rfl
      have e2 : v / 256 % 256 = v / 256 := Nat.mod_eq_of_lt (by omega)
      rw [e1, e2, Nat.mod_add_div]
    simp only [read_uint15]
    rw [hle, if_pos (by rw [ADDRESS_SPACE_eq]; omega)]
  constructor
  · simp only [op_rmem]
    rw [h3, exbind_ok, h4, exbind_ok, hread, exbind_ok]
  · simp only [setReg, upd]
    simp

/-- Concrete memory for the C8 witness: at pointer 0 a `wmem 100, 12345`
instruction (literal operands), at pointer 6 an `rmem r3, 100` instruction
(destination raw 32771); word address 100 is byte offset 200, clear of both
encodings. -/
def mC8 : Mem :=
  { registers := fun _ => 0
    stackLen := MIN_STACK_SIZE
    stackBuf := fun _ => 0
    ram := fun i =>
      if i = 0 then 16 else if i = 2 then 100
      else if i = 4 then 57 else if i = 5 then 48
      else if i = 6 then 15 else if i = 8 then 3 else if i = 9 then 128
      else if i = 10 then 100 else 0 }

/-- The memory after the C8 witness `wmem` stores the bytes of 12345 at
byte offsets 200 and 201. -/
def mC8w : Mem :=
  { mC8 with ram := upd (upd mC8.ram (2 * 100) (12345 % 256)) (2 * 100 + 1) (12345 / 256) }

/-- C8 witness: the round-trip theorem applied to the concrete program —
after `wmem 100, 12345` the `rmem r3, 100` leaves register 3 equal to 12345. -/
theorem wmem_rmem_roundtrip_witness :
    op_rmem 6 mC8w = .ok (6 + 6, setReg mC8w 3 12345) ∧
    (setReg mC8w 3 12345).registers 3 = 12345 :=
  wmem_rmem_roundtrip mC8 0 6 100 12345 3 (by decide) (by decide)
    (by rfl) (by rfl) mC8w (by rfl) (by rfl) (by rfl)


/-! ### C7 — the stack-pointer invariant and push bounds -/

/-- Program image for the C7 trace: 511 `push 7` instructions (bytes
`[2,0,7,0]` at offsets `0, 4, ..., 2040`), one `noop` at offset 2044, then
`push 7` instructions from offset 2046 on. -/
def bugProg (i : Nat) : Nat :=
  if i < 2044 then (if i % 4 = 0 then 2 else if i % 4 = 2 then 7 else 0)
  else if i = 2044 then 21
  else if i ≤ 2045 then 0
  else if (i - 2046) % 4 = 0 then 2
  else if (i - 2046) % 4 = 2 then 7
  else 0

/-- The freshly constructed machine loaded with `bugProg` (pointer 0, zero
registers, floor-sized zeroed stack — exactly `init_with` of that image). -/
def s0bug : State :=
  { program_ptr := 0
    mem := { registers := fun _ => 0
             stackLen := MIN_STACK_SIZE
             stackBuf := fun _ => 0
             ram := bugProg }
    stdin := []
    stdout := [] }

/-- Error projection of a run result. -/
def errorOf (r : Except Error State) : Option Error :=
  match r with
  | .ok _ => none
  | .error e => some e

/-- Stack pointer and stack capacity of a run result. -/
def spLenOf (r : Except Error State) : Option (Nat × Nat) :=
  match r with
  | .ok s => some (s.mem.stackBuf 0 % 65536, s.mem.stackLen)
  | .error _ => none

set_option maxRecDepth 1000000 in
/-- C7: executed faithfully from the freshly constructed machine `s0bug`, the
engine reaches — after 1024 successful steps — a state with stack pointer
1023 and capacity 1024 (the claimed invariant `sp ≤ len - 1` still holds,
with equality), and the very next `push` writes data index 1023 of a
1023-slot data area: an index-out-of-bounds panic.  The run: the 512th step
expands the stack to 2048 and executes the `noop`; the 513th step shrinks it
back to 1024 with the stack pointer landing exactly on the expand threshold
`(1024 - 2) / 2 = 511`, and the following `push` moves the pointer past the
equality-tested expand trigger, which therefore never fires again. -/
theorem push_out_of_bounds_bug :
    spLenOf (steps 1024 s0bug) = some (1023, 1024) ∧
    errorOf (steps 1025 s0bug) = some .PanicIndexOutOfBounds :=
  ⟨rfl, rfl⟩

end VM
